import Mathlib

set_option maxRecDepth 100000
set_option maxHeartbeats 2000000

/-!
Verification of the two calculator programs in this repository
(`src/example_files/test.c` and `src/example_files/test2.c`).

Each program is a straight-line C `main` over four local variables.
We embed each program as a state-passing computation over an explicit
state record.  A variable that the C program declares but has not yet
assigned is modelled as `none`; reading such a variable is C undefined
behaviour and makes the whole run return `none`.  Every `printf` call is
recorded as an event carrying the exact format string of the source and
the argument values passed, in order.  The C `float` values are
abstracted to exact rationals (`ℚ`); rounding of the binary32 division
is not modelled.
-/

/-- A value passed to `printf`: an `int` ( `%d` ) or a floating value
( `%.2f` ), the latter abstracted to an exact rational. -/
inductive Val where
  | i : Int → Val
  | f : Rat → Val
deriving DecidableEq

/-- One `printf` call: the format string from the source, and the
argument values passed, in order. -/
structure PrintfCall where
  fmt : String
  args : List Val
deriving DecidableEq

/-- The local variables of `main` plus the output trace.  A field is
`none` while the corresponding C variable is uninitialized. -/
structure CState where
  num1 : Option Int
  num2 : Option Int
  sum : Option Int
  difference : Option Int
  product : Option Int
  quotient : Option Rat
  out : List PrintfCall
deriving DecidableEq

/-- State at the top of `main`: every variable declared, none assigned,
nothing printed yet. -/
def initState : CState :=
  ⟨none, none, none, none, none, none, []⟩

/-- Append one `printf` event to the output trace. -/
def emit (s : CState) (e : PrintfCall) : CState :=
  { s with out := s.out ++ [e] }

/-- The nearest integer to `100 * q`, halves rounded up: since a
rational's denominator is positive, this is the floor of
`(200 * num + den) / (2 * den)`. -/
def roundHundredths (q : Rat) : Int :=
  Int.fdiv (200 * q.num + (q.den : Int)) (2 * (q.den : Int))

/-- Rendering of a value under the `%.2f` conversion, on the exact
rational abstraction of the C `float`: round to the nearest hundredth
and print with exactly two digits after the point. -/
def fmt2 (q : Rat) : String :=
  let c : Int := roundHundredths q
  let n : Nat := c.natAbs
  (if c < 0 then "-" else "") ++ toString (n / 100) ++ "." ++
    (if n % 100 < 10 then "0" else "") ++ toString (n % 100)

/-- Substitute the arguments into a format string, character by
character: `%d` consumes an integer argument, `%.2f` consumes a
floating argument; every other character is copied verbatim. -/
def renderChars : List Char → List Val → List Char
  | [], _ => []
  | '%' :: 'd' :: rest, Val.i n :: vs => (toString n).data ++ renderChars rest vs
  | '%' :: '.' :: '2' :: 'f' :: rest, Val.f q :: vs => (fmt2 q).data ++ renderChars rest vs
  | c :: rest, vs => c :: renderChars rest vs

/-- The text a `printf` call writes to stdout. -/
def render (e : PrintfCall) : String :=
  ⟨renderChars e.fmt.data e.args⟩

namespace TestC

/-- `main` of `src/example_files/test.c`, given the two integers that
`scanf` reads.  Each statement of the source appears in order; every
use of a variable reads it from the current state, so a read of an
unassigned variable aborts the run with `none`.  Returns the final
state and the exit status. -/
def run (a b : Int) : Option (CState × Int) := do
  let s := initState
  let s := emit s ⟨"=== Simple Calculator Program ===\n", []⟩
  let s := emit s ⟨"Enter the first number: ", []⟩
  let s := { s with num1 := some a }
  let s := emit s ⟨"Enter the second number: ", []⟩
  let s := { s with num2 := some b }
  let x1 ← s.num1
  let y1 ← s.num2
  let s := { s with sum := some (x1 + y1) }
  let x2 ← s.num1
  let y2 ← s.num2
  let s := { s with difference := some (x2 - y2) }
  let x3 ← s.num1
  let y3 ← s.num2
  let s := { s with product := some (x3 * y3) }
  let g ← s.num2
  let s ← if g ≠ 0 then do
      let n ← s.num1
      let d ← s.num2
      pure { s with quotient := some (Rat.divInt n d) }
    else pure s
  let s := emit s ⟨"\n=== Results ===\n", []⟩
  let p1 ← s.num1
  let p2 ← s.num2
  let p3 ← s.sum
  let s := emit s ⟨"Addition: %d + %d = %d\n", [Val.i p1, Val.i p2, Val.i p3]⟩
  let p4 ← s.num1
  let p5 ← s.num2
  let p6 ← s.difference
  let s := emit s ⟨"Subtraction: %d - %d = %d\n", [Val.i p4, Val.i p5, Val.i p6]⟩
  let p7 ← s.num1
  let p8 ← s.num2
  let p9 ← s.product
  let s := emit s ⟨"Multiplication: %d × %d = %d\n", [Val.i p7, Val.i p8, Val.i p9]⟩
  let g2 ← s.num2
  let s ← if g2 ≠ 0 then do
      let q1 ← s.num1
      let q2 ← s.num2
      let qv ← s.quotient
      pure (emit s ⟨"Division: %d ÷ %d = %.2f\n", [Val.i q1, Val.i q2, Val.f qv]⟩)
    else pure (emit s ⟨"Division: Cannot divide by zero!\n", []⟩)
  pure (s, 0)

/-- Everything `test.c` writes to stdout, when the run has no undefined
behaviour. -/
def stdout (a b : Int) : Option String :=
  (run a b).map (fun p => String.join (p.1.out.map render))

end TestC

namespace Test2

/-- `main` of `src/example_files/test2.c`, given the two integers that
`scanf` reads; same modelling conventions as `TestC.run`. -/
def run (a b : Int) : Option (CState × Int) := do
  let s := initState
  let s := emit s ⟨"Enter first number: ", []⟩
  let s := { s with num1 := some a }
  let s := emit s ⟨"Enter second number: ", []⟩
  let s := { s with num2 := some b }
  let x1 ← s.num1
  let y1 ← s.num2
  let s := { s with sum := some (x1 + y1) }
  let x2 ← s.num1
  let y2 ← s.num2
  let s := { s with difference := some (x2 - y2) }
  let x3 ← s.num1
  let y3 ← s.num2
  let s := { s with product := some (x3 * y3) }
  let g ← s.num2
  let s ← if g ≠ 0 then do
      let n ← s.num1
      let d ← s.num2
      pure { s with quotient := some (Rat.divInt n d) }
    else pure s
  let s := emit s ⟨"\nResults:\n", []⟩
  let p1 ← s.num1
  let p2 ← s.num2
  let p3 ← s.sum
  let s := emit s ⟨"%d + %d = %d\n", [Val.i p1, Val.i p2, Val.i p3]⟩
  let p4 ← s.num1
  let p5 ← s.num2
  let p6 ← s.difference
  let s := emit s ⟨"%d - %d = %d\n", [Val.i p4, Val.i p5, Val.i p6]⟩
  let p7 ← s.num1
  let p8 ← s.num2
  let p9 ← s.product
  let s := emit s ⟨"%d * %d = %d\n", [Val.i p7, Val.i p8, Val.i p9]⟩
  let g2 ← s.num2
  let s ← if g2 ≠ 0 then do
      let q1 ← s.num1
      let q2 ← s.num2
      let qv ← s.quotient
      pure (emit s ⟨"%d / %d = %.2f\n", [Val.i q1, Val.i q2, Val.f qv]⟩)
    else pure (emit s ⟨"Division by zero is undefined\n", []⟩)
  pure (s, 0)

/-- Everything `test2.c` writes to stdout, when the run has no undefined
behaviour. -/
def stdout (a b : Int) : Option String :=
  (run a b).map (fun p => String.join (p.1.out.map render))

end Test2

/-- The output trace `test.c` produces on inputs `a`, `b`. -/
def TestC.finalOut (a b : Int) : List PrintfCall :=
  [⟨"=== Simple Calculator Program ===\n", []⟩,
   ⟨"Enter the first number: ", []⟩,
   ⟨"Enter the second number: ", []⟩,
   ⟨"\n=== Results ===\n", []⟩,
   ⟨"Addition: %d + %d = %d\n", [Val.i a, Val.i b, Val.i (a + b)]⟩,
   ⟨"Subtraction: %d - %d = %d\n", [Val.i a, Val.i b, Val.i (a - b)]⟩,
   ⟨"Multiplication: %d × %d = %d\n", [Val.i a, Val.i b, Val.i (a * b)]⟩,
   if b = 0 then ⟨"Division: Cannot divide by zero!\n", []⟩
   else ⟨"Division: %d ÷ %d = %.2f\n", [Val.i a, Val.i b, Val.f (Rat.divInt a b)]⟩]

/-- The state at the `return 0` of `test.c` on inputs `a`, `b`. -/
def TestC.finalState (a b : Int) : CState :=
  ⟨some a, some b, some (a + b), some (a - b), some (a * b),
   if b = 0 then none else some (Rat.divInt a b), TestC.finalOut a b⟩

/-- `test.c` always runs to completion (no undefined-behaviour read),
reaching the final state above with exit status `0`. -/
theorem TestC.testC_run_eq (a b : Int) :
    TestC.run a b = some (TestC.finalState a b, 0) := by
  match b with
  | Int.ofNat 0 => rfl
  | Int.ofNat (n + 1) => rfl
  | Int.negSucc n => rfl

/-- The output trace `test2.c` produces on inputs `a`, `b`. -/
def Test2.finalOut (a b : Int) : List PrintfCall :=
  [⟨"Enter first number: ", []⟩,
   ⟨"Enter second number: ", []⟩,
   ⟨"\nResults:\n", []⟩,
   ⟨"%d + %d = %d\n", [Val.i a, Val.i b, Val.i (a + b)]⟩,
   ⟨"%d - %d = %d\n", [Val.i a, Val.i b, Val.i (a - b)]⟩,
   ⟨"%d * %d = %d\n", [Val.i a, Val.i b, Val.i (a * b)]⟩,
   if b = 0 then ⟨"Division by zero is undefined\n", []⟩
   else ⟨"%d / %d = %.2f\n", [Val.i a, Val.i b, Val.f (Rat.divInt a b)]⟩]

/-- The state at the `return 0` of `test2.c` on inputs `a`, `b`. -/
def Test2.finalState (a b : Int) : CState :=
  ⟨some a, some b, some (a + b), some (a - b), some (a * b),
   if b = 0 then none else some (Rat.divInt a b), Test2.finalOut a b⟩

/-- `test2.c` always runs to completion (no undefined-behaviour read),
reaching the final state above with exit status `0`. -/
theorem Test2.test2_run_eq (a b : Int) :
    Test2.run a b = some (Test2.finalState a b, 0) := by
  match b with
  | Int.ofNat 0 => rfl
  | Int.ofNat (n + 1) => rfl
  | Int.negSucc n => rfl

/-- C1: for every pair of input integers `a`, `b`, both programs compute
`sum = a + b`, `difference = a - b`, `product = a * b` (unconditionally,
also for `b = 0`), and these values are the ones printed in the three
labeled arithmetic result lines, which echo the operands. -/
theorem claim_C1 (a b : Int) :
    ∃ s t : CState,
      TestC.run a b = some (s, 0) ∧ Test2.run a b = some (t, 0) ∧
      s.sum = some (a + b) ∧ s.difference = some (a - b) ∧ s.product = some (a * b) ∧
      t.sum = some (a + b) ∧ t.difference = some (a - b) ∧ t.product = some (a * b) ∧
      (⟨"Addition: %d + %d = %d\n", [Val.i a, Val.i b, Val.i (a + b)]⟩ : PrintfCall) ∈ s.out ∧
      (⟨"Subtraction: %d - %d = %d\n", [Val.i a, Val.i b, Val.i (a - b)]⟩ : PrintfCall) ∈ s.out ∧
      (⟨"Multiplication: %d × %d = %d\n", [Val.i a, Val.i b, Val.i (a * b)]⟩ : PrintfCall) ∈ s.out ∧
      (⟨"%d + %d = %d\n", [Val.i a, Val.i b, Val.i (a + b)]⟩ : PrintfCall) ∈ t.out ∧
      (⟨"%d - %d = %d\n", [Val.i a, Val.i b, Val.i (a - b)]⟩ : PrintfCall) ∈ t.out ∧
      (⟨"%d * %d = %d\n", [Val.i a, Val.i b, Val.i (a * b)]⟩ : PrintfCall) ∈ t.out := by
  refine ⟨TestC.finalState a b, Test2.finalState a b, TestC.testC_run_eq a b, Test2.test2_run_eq a b,
    ?_, ?_, ?_, ?_, ?_, ?_, ?_, ?_, ?_, ?_, ?_, ?_⟩ <;>
    simp [TestC.finalState, TestC.finalOut, Test2.finalState, Test2.finalOut]

/-- C2: for every input pair with `b = 0`, both programs print their
division-undefined message, print no quotient-value line, and never
perform the floating-point division (the quotient variable is never
assigned). -/
theorem claim_C2 (a b : Int) (hb : b = 0) :
    ∃ s t : CState,
      TestC.run a b = some (s, 0) ∧ Test2.run a b = some (t, 0) ∧
      s.quotient = none ∧ t.quotient = none ∧
      (⟨"Division: Cannot divide by zero!\n", []⟩ : PrintfCall) ∈ s.out ∧
      (⟨"Division by zero is undefined\n", []⟩ : PrintfCall) ∈ t.out ∧
      (∀ e ∈ s.out, e.fmt ≠ "Division: %d ÷ %d = %.2f\n") ∧
      (∀ e ∈ t.out, e.fmt ≠ "%d / %d = %.2f\n") := by
  subst hb
  refine ⟨TestC.finalState a 0, Test2.finalState a 0, TestC.testC_run_eq a 0, Test2.test2_run_eq a 0,
    ?_, ?_, ?_, ?_, ?_, ?_⟩ <;>
    simp [TestC.finalState, TestC.finalOut, Test2.finalState, Test2.finalOut]

/-- Witness for C2 at the concrete input `a = 5`, `b = 0`. -/
theorem claim_C2_witness :
    ∃ s t : CState,
      TestC.run 5 0 = some (s, 0) ∧ Test2.run 5 0 = some (t, 0) ∧
      s.quotient = none ∧ t.quotient = none ∧
      (⟨"Division: Cannot divide by zero!\n", []⟩ : PrintfCall) ∈ s.out ∧
      (⟨"Division by zero is undefined\n", []⟩ : PrintfCall) ∈ t.out ∧
      (∀ e ∈ s.out, e.fmt ≠ "Division: %d ÷ %d = %.2f\n") ∧
      (∀ e ∈ t.out, e.fmt ≠ "%d / %d = %.2f\n") :=
  claim_C2 5 0 rfl

/-- C4: the two programs are observationally equivalent up to message
wording: on every input pair they compute the same sum, difference,
product and (as an exact rational) quotient, and both take the division
branch exactly when `b ≠ 0`. -/
theorem claim_C4 (a b : Int) :
    ∃ s t : CState,
      TestC.run a b = some (s, 0) ∧ Test2.run a b = some (t, 0) ∧
      t.sum = s.sum ∧ t.difference = s.difference ∧ t.product = s.product ∧
      t.quotient = s.quotient ∧
      (s.quotient.isSome = true ↔ b ≠ 0) ∧ (t.quotient.isSome = true ↔ b ≠ 0) := by
  refine ⟨TestC.finalState a b, Test2.finalState a b, TestC.testC_run_eq a b, Test2.test2_run_eq a b,
    ?_, ?_, ?_, ?_, ?_, ?_⟩ <;>
    by_cases hb : b = 0 <;>
    simp [TestC.finalState, TestC.finalOut, Test2.finalState, Test2.finalOut, hb]

/-- C5: on every input pair both programs terminate after producing one
report and exit with status `0`; in particular (instantiating `b := 0`)
there is no distinct failure exit path for `b = 0`. -/
theorem claim_C5 (a b : Int) :
    ∃ s t : CState, TestC.run a b = some (s, 0) ∧ Test2.run a b = some (t, 0) :=
  ⟨TestC.finalState a b, Test2.finalState a b, TestC.testC_run_eq a b, Test2.test2_run_eq a b⟩

/-- C6: on input operands `10` and `5`, the printed results show
`15` (sum), `5` (difference), `50` (product) and `2.00` (quotient,
two decimal places), in both programs. -/
theorem claim_C6 :
    TestC.stdout 10 5 = some ("=== Simple Calculator Program ===\n" ++
        "Enter the first number: " ++ "Enter the second number: " ++
        "\n=== Results ===\n" ++ "Addition: 10 + 5 = 15\n" ++
        "Subtraction: 10 - 5 = 5\n" ++ "Multiplication: 10 × 5 = 50\n" ++
        "Division: 10 ÷ 5 = 2.00\n") ∧
    Test2.stdout 10 5 = some ("Enter first number: " ++ "Enter second number: " ++
        "\nResults:\n" ++ "10 + 5 = 15\n" ++ "10 - 5 = 5\n" ++
        "10 * 5 = 50\n" ++ "10 / 5 = 2.00\n") := by
  decide

/-- C7: on input operands `7` and `0`, the printed results show
`7` (sum), `7` (difference), `0` (product), and each program's
division message in place of a quotient line. -/
theorem claim_C7 :
    TestC.stdout 7 0 = some ("=== Simple Calculator Program ===\n" ++
        "Enter the first number: " ++ "Enter the second number: " ++
        "\n=== Results ===\n" ++ "Addition: 7 + 0 = 7\n" ++
        "Subtraction: 7 - 0 = 7\n" ++ "Multiplication: 7 × 0 = 0\n" ++
        "Division: Cannot divide by zero!\n") ∧
    Test2.stdout 7 0 = some ("Enter first number: " ++ "Enter second number: " ++
        "\nResults:\n" ++ "7 + 0 = 7\n" ++ "7 - 0 = 7\n" ++
        "7 * 0 = 0\n" ++ "Division by zero is undefined\n") := by
  decide

/-- C8: the operands are immutable after being read: at the end of every
run the operand variables still hold exactly the input values, and the
argument lists of all printf events echo exactly those values (fixed
text has no arguments; each result line passes the two operands and the
derived value). -/
theorem claim_C8 (a b : Int) :
    ∃ s t : CState,
      TestC.run a b = some (s, 0) ∧ Test2.run a b = some (t, 0) ∧
      s.num1 = some a ∧ s.num2 = some b ∧ t.num1 = some a ∧ t.num2 = some b ∧
      s.out.map PrintfCall.args =
        [[], [], [], [],
         [Val.i a, Val.i b, Val.i (a + b)],
         [Val.i a, Val.i b, Val.i (a - b)],
         [Val.i a, Val.i b, Val.i (a * b)],
         if b = 0 then [] else [Val.i a, Val.i b, Val.f (Rat.divInt a b)]] ∧
      t.out.map PrintfCall.args =
        [[], [], [],
         [Val.i a, Val.i b, Val.i (a + b)],
         [Val.i a, Val.i b, Val.i (a - b)],
         [Val.i a, Val.i b, Val.i (a * b)],
         if b = 0 then [] else [Val.i a, Val.i b, Val.f (Rat.divInt a b)]] := by
  refine ⟨TestC.finalState a b, Test2.finalState a b, TestC.testC_run_eq a b, Test2.test2_run_eq a b,
    ?_, ?_, ?_, ?_, ?_, ?_⟩ <;>
    by_cases hb : b = 0 <;>
    simp [TestC.finalState, TestC.finalOut, Test2.finalState, Test2.finalOut, hb]

/-- C9: the uninitialized quotient variable is never read: both runs
complete without an undefined-behaviour read (a read of an unassigned
variable would abort the run with `none`), the quotient variable is
assigned exactly when `b ≠ 0`, and the quotient print line is emitted
under exactly the same condition. -/
theorem claim_C9 (a b : Int) :
    ∃ s t : CState,
      TestC.run a b = some (s, 0) ∧ Test2.run a b = some (t, 0) ∧
      (s.quotient.isSome = true ↔ b ≠ 0) ∧
      ((⟨"Division: %d ÷ %d = %.2f\n",
          [Val.i a, Val.i b, Val.f (Rat.divInt a b)]⟩ : PrintfCall) ∈ s.out ↔ b ≠ 0) ∧
      (t.quotient.isSome = true ↔ b ≠ 0) ∧
      ((⟨"%d / %d = %.2f\n",
          [Val.i a, Val.i b, Val.f (Rat.divInt a b)]⟩ : PrintfCall) ∈ t.out ↔ b ≠ 0) := by
  refine ⟨TestC.finalState a b, Test2.finalState a b, TestC.testC_run_eq a b, Test2.test2_run_eq a b,
    ?_, ?_, ?_, ?_⟩ <;>
    by_cases hb : b = 0 <;>
    simp [TestC.finalState, TestC.finalOut, Test2.finalState, Test2.finalOut, hb]

/-- C10: each program is deterministic: two runs given the same pair of
input integers produce the same result state, exit status and stdout
text — the behaviour depends only on the two integers read. -/
theorem claim_C10 (a b a2 b2 : Int) (h1 : a = a2) (h2 : b = b2) :
    TestC.run a b = TestC.run a2 b2 ∧ TestC.stdout a b = TestC.stdout a2 b2 ∧
    Test2.run a b = Test2.run a2 b2 ∧ Test2.stdout a b = Test2.stdout a2 b2 := by
  subst h1
  subst h2
  exact ⟨rfl, rfl, rfl, rfl⟩

/-- Witness for C10 at the concrete input `a = 9`, `b = 3` for both runs. -/
theorem claim_C10_witness :
    TestC.run 9 3 = TestC.run 9 3 ∧ TestC.stdout 9 3 = TestC.stdout 9 3 ∧
    Test2.run 9 3 = Test2.run 9 3 ∧ Test2.stdout 9 3 = Test2.stdout 9 3 :=
  claim_C10 9 3 9 3 rfl rfl
